import Mathlib

/-!
Shallow embedding of the session lifecycle and message-dispatch core of the
claude-telegram-chat repository (src/bot.py and src/api/webhook.py).

The two variants define an identical `UserSession` class; the webhook variant
(src/api/webhook.py) additionally has an explicit command router
(`handler.process_update`), a `do_POST` entry point and a `SessionStorage`
store, so the store-level and router-level definitions below follow
src/api/webhook.py, with timestamps modelled as integer seconds
(`datetime.now()` values) and the two remote calls (the minimal credential
probe and the chat completion) modelled by an oracle recording their outcome.
-/

namespace ClaudeTelegramChat

/-- Python truthiness of an optional environment string: `None` and `""` are falsy. -/
def strTruthy : Option String → Bool
  | none => false
  | some s => s ≠ ""

/-- Configuration surface read from the environment at module load
(src/api/webhook.py lines 25-29, src/bot.py lines 31-37). -/
structure Config where
  MASTER_PASSWORD : Option String
  DEFAULT_CLAUDE_API_KEY : Option String
  MAX_CONVERSATION_LENGTH : Nat
  SESSION_TIMEOUT_HOURS : Int
deriving DecidableEq, Repr

/-- One conversation turn, `{"role": role, "content": content}`
(appended by `UserSession.add_message`). -/
structure Turn where
  role : String
  content : String
deriving DecidableEq, Repr

/-- Per-user session state, mirroring `UserSession.__init__`
(src/api/webhook.py lines 107-114, src/bot.py lines 45-52).
`claude_client` records whether `self.claude_client` is a client object
rather than `None`. -/
structure UserSession where
  user_id : Int
  authenticated : Bool
  api_key : Option String
  conversation_history : List Turn
  last_activity : Int
  claude_client : Bool
deriving DecidableEq, Repr

/-- Fresh session as built by `UserSession.__init__(user_id)` at time `now`. -/
def UserSession.new (uid : Int) (now : Int) : UserSession :=
  { user_id := uid
    authenticated := false
    api_key := none
    conversation_history := []
    last_activity := now
    claude_client := false }

/-- Python's `l[-n:]` slice: for `n = 0` it is `l[0:]`, the whole list,
otherwise the last `min n (length l)` elements. -/
def pySliceLast (l : List Turn) (n : Nat) : List Turn :=
  if n = 0 then l else l.rtake n

/-- `UserSession.authenticate_with_password` (src/api/webhook.py lines
116-123): guarded by `MASTER_PASSWORD and password == MASTER_PASSWORD`;
on success binds `DEFAULT_CLAUDE_API_KEY` (which may be `None`) and builds a
client only when that key is truthy. Returns the updated session and the
boolean result. -/
def authenticate_with_password (cfg : Config) (s : UserSession) (password : String) :
    UserSession × Bool :=
  if strTruthy cfg.MASTER_PASSWORD && (cfg.MASTER_PASSWORD == some password) then
    ({ s with
        authenticated := true
        api_key := cfg.DEFAULT_CLAUDE_API_KEY
        claude_client :=
          if strTruthy cfg.DEFAULT_CLAUDE_API_KEY then true else s.claude_client },
      true)
  else
    (s, false)

/-- `UserSession.authenticate_with_api_key` (src/api/webhook.py lines
125-129): unconditionally binds the key and builds a client. -/
def authenticate_with_api_key (s : UserSession) (api_key : String) :
    UserSession × Bool :=
  ({ s with authenticated := true, api_key := some api_key, claude_client := true }, true)

/-- `UserSession.add_message` (src/api/webhook.py lines 131-139): append the
turn, stamp `last_activity`, and when the history exceeds
`MAX_CONVERSATION_LENGTH` keep the slice `history[-MAX_CONVERSATION_LENGTH:]`. -/
def add_message (cfg : Config) (s : UserSession) (role content : String) (now : Int) :
    UserSession :=
  let h := s.conversation_history ++ [{ role := role, content := content }]
  let h2 := if cfg.MAX_CONVERSATION_LENGTH < h.length
    then pySliceLast h cfg.MAX_CONVERSATION_LENGTH else h
  { s with conversation_history := h2, last_activity := now }

/-- `UserSession.reset_conversation` (src/api/webhook.py lines 141-142):
clears the history only. -/
def reset_conversation (s : UserSession) : UserSession :=
  { s with conversation_history := [] }

/-- The session store: the `SessionStorage.sessions` dict, insertion-ordered
keys (src/api/webhook.py lines 36-105). -/
abbrev Store := List (Int × UserSession)

/-- Dict write `self.sessions[user_id] = session`: replace the binding at an
existing key in place (keys are unique in a dict, so the first match is the
only one), or append a new binding in insertion order. -/
def store_set : Store → Int → UserSession → Store
  | [], uid, s => [(uid, s)]
  | p :: t, uid, s => if p.1 = uid then (uid, s) :: t else p :: store_set t uid s

/-- `timedelta(hours=SESSION_TIMEOUT_HOURS)` in seconds. -/
def timeout_delta (cfg : Config) : Int := cfg.SESSION_TIMEOUT_HOURS * 3600

/-- `SessionStorage.clean_old_sessions` (src/api/webhook.py lines 88-105,
same condition in src/bot.py lines 88-96): delete every session with
`current_time - session.last_activity > timedelta(hours=SESSION_TIMEOUT_HOURS)`,
keeping the rest in order. -/
def clean_old_sessions (cfg : Config) (now : Int) (st : Store) : Store :=
  st.filter (fun p => decide (now - p.2.last_activity ≤ timeout_delta cfg))

/-- Outbound effect through the Telegram HTTP API: `sendMessage`
or `deleteMessage` (src/api/webhook.py lines 147-178). -/
inductive Out
  | send (chat_id : Int) (text : String)
  | delete (chat_id : Int) (message_id : Int)
deriving DecidableEq, Repr

/-- `text[:4096]` inside `TelegramAPI.send_message` and `edit_message`. -/
def truncate4096 (t : String) : String := String.mk (t.data.take 4096)

/-- `TelegramAPI.send_message(chat_id, text, ...)`: posts `text[:4096]`. -/
def tg_send (chat_id : Int) (text : String) : Out :=
  Out.send chat_id (truncate4096 text)

/-- Outcomes of the two remote calls and the message id of the posted
working indicator, fixed for the one inbound event being processed. -/
structure Oracle where
  probe_ok : Bool
  chat : Except String String
  thinking_id : Option Int
deriving Repr

/-- Welcome text sent by `handle_start_command` (src/api/webhook.py lines 188-204). -/
def welcome_message : String :=
  "🤖 **Welcome to Claude Telegram Bot!**\n\nTo start chatting with Claude, you need to authenticate:\n\n**Option 1:** Enter the access password\n**Option 2:** Enter your Claude API key (starts with \x27sk-ant-\x27)\n\nSimply send your password or API key as the next message.\n\n📝 **Commands:**\n• `/start` - Start or restart the bot\n• `/reset` - Clear conversation history\n• `/help` - Show this help message\n\nAfter authentication, just send any message to chat with Claude!"

/-- Help text sent by `handle_help_command` (src/api/webhook.py lines 220-241). -/
def help_message : String :=
  "📚 **Claude Telegram Bot Help**\n\n**Commands:**\n• `/start` - Start or restart authentication\n• `/reset` - Clear conversation history\n• `/help` - Show this help message\n\n**How to use:**\n1. Start with `/start`\n2. Authenticate with password or API key\n3. Send any message to chat with Claude\n4. Use `/reset` to clear conversation history\n\n**Tips:**\n• Claude remembers your conversation context\n• Long conversations are automatically trimmed\n• Sessions expire after 24 hours of inactivity\n\n**Privacy:**\n• Your API key is stored only temporarily\n• Conversations are not logged permanently"

/-- Success confirmation sent on either authentication path. -/
def auth_success_message : String :=
  "✅ **Authentication successful!**\n\nYou can now start chatting with Claude. Just send any message!"

/-- Python `str.startswith` at the character level (`text.startswith('/')`,
`message_text.startswith('sk-ant-')`). -/
def startswith (t pre : String) : Bool := pre.data.isPrefixOf t.data

/-- The chunking list comprehension
`[assistant_message[i:i+4096] for i in range(0, len(assistant_message), 4096)]`
(src/api/webhook.py line 323, src/bot.py line 224), generalised over the
chunk size `n`; `range(0, L, n)` has `⌈L/n⌉` elements `0, n, 2n, ...`. -/
def pyChunks (n : Nat) (s : List Char) : List (List Char) :=
  (List.range' 0 ((s.length + n - 1) / n) n).map (fun i => (s.drop i).take n)

/-- `storage.get_session(user_id)` followed by
`if not session: session = storage.create_session(user_id)`: returns the
session and the store with the fresh session inserted when it was absent. -/
def get_or_create (st : Store) (uid : Int) (now : Int) : UserSession × Store :=
  match st.lookup uid with
  | some s => (s, st)
  | none =>
    let s := UserSession.new uid now
    (s, store_set st uid s)

/-- `handle_start_command` (src/api/webhook.py lines 181-206): fetch or
create the session, clear its history, save it, send the welcome text. -/
def handle_start_command (st : Store) (chat_id uid : Int) (now : Int) :
    Store × List Out :=
  let r := get_or_create st uid now
  (store_set r.2 uid (reset_conversation r.1), [tg_send chat_id welcome_message])

/-- `handle_reset_command` (src/api/webhook.py lines 208-218): an
unauthenticated session gets the authentication-required notice; an
authenticated one has its history cleared and saved. -/
def handle_reset_command (st : Store) (chat_id uid : Int) (now : Int) :
    Store × List Out :=
  let r := get_or_create st uid now
  if !r.1.authenticated then
    (r.2, [tg_send chat_id "❌ Please authenticate first using /start"])
  else
    (store_set r.2 uid (reset_conversation r.1), [tg_send chat_id "✅ Conversation history cleared. Starting fresh!"])

/-- The `delete_message(chat_id, thinking_msg_id)` calls guarded by
`if thinking_msg_id:`. -/
def delete_thinking (chat_id : Int) (tid : Option Int) : List Out :=
  match tid with
  | some mid => [Out.delete chat_id mid]
  | none => []

/-- `handle_regular_message` (src/api/webhook.py lines 243-335).
Unauthenticated sessions go through the two authentication strategies;
authenticated ones through the chat flow, whose remote outcomes come from
the oracle. Python mutates the session object held in the store in place,
so `add_message` is visible in the store even when the chat call fails and
`update_session` is not reached. -/
def handle_regular_message (cfg : Config) (og : Oracle) (st : Store)
    (chat_id uid : Int) (text : String) (now : Int) : Store × List Out :=
  let r := get_or_create st uid now
  if !r.1.authenticated then
    if startswith text "sk-ant-" then
      if og.probe_ok then
        (store_set r.2 uid (authenticate_with_api_key r.1 text).1,
          [tg_send chat_id auth_success_message])
      else
        (r.2, [tg_send chat_id "❌ Invalid API key. Please check and try again."])
    else if strTruthy cfg.MASTER_PASSWORD && (authenticate_with_password cfg r.1 text).2 then
      (store_set r.2 uid (authenticate_with_password cfg r.1 text).1,
        [tg_send chat_id auth_success_message])
    else
      (r.2, [tg_send chat_id "❌ Invalid password or API key. Please try again or use /start to see options."])
  else if !r.1.claude_client then
    (r.2, [tg_send chat_id "❌ No Claude API key configured. Please restart with /start"])
  else
    let thinking := tg_send chat_id "🤔 Claude is thinking..."
    let s1 := add_message cfg r.1 "user" text now
    match og.chat with
    | Except.ok reply =>
      let s2 := add_message cfg s1 "assistant" reply now
      let sends :=
        if 4096 < reply.length then
          (pyChunks 4096 reply.data).map (fun c => tg_send chat_id (String.mk c))
        else
          [tg_send chat_id reply]
      (store_set r.2 uid s2, thinking :: delete_thinking chat_id og.thinking_id ++ sends)
    | Except.error e =>
      (store_set r.2 uid s1,
        thinking :: delete_thinking chat_id og.thinking_id ++
          [tg_send chat_id ("❌ Error: " ++ e ++ "\n\nPlease try again or use /reset to clear the conversation.")])

/-- Outcome of the `if text == '/start' ... elif ... elif not text.startswith('/')`
chain in `handler.process_update`. `unmatched` is text starting with `/` that
equals none of the three commands: it falls through every branch. -/
inductive Route
  | start
  | reset
  | help
  | regular
  | unmatched
deriving DecidableEq, Repr

/-- The dispatch chain of `handler.process_update` (src/api/webhook.py lines
394-401): exact, case-sensitive, first-match. -/
def route (text : String) : Route :=
  if text = "/start" then Route.start
  else if text = "/reset" then Route.reset
  else if text = "/help" then Route.help
  else if !(startswith text "/") then Route.regular
  else Route.unmatched

/-- `handler.process_update` (src/api/webhook.py lines 382-401): dispatch
the message text to the matching handler; unmatched text produces no
handler call and no output. -/
def process_update (cfg : Config) (og : Oracle) (st : Store)
    (chat_id uid : Int) (text : String) (now : Int) : Store × List Out :=
  match route text with
  | Route.start => handle_start_command st chat_id uid now
  | Route.reset => handle_reset_command st chat_id uid now
  | Route.help => (st, [tg_send chat_id help_message])
  | Route.regular => handle_regular_message cfg og st chat_id uid text now
  | Route.unmatched => (st, [])

/-- Parse outcome of the POST body, as far as `do_POST` distinguishes it:
invalid JSON, a JSON update without a `message` field, or a message with
chat id, sender id and text (`message.get('text', '')`). -/
inductive Body
  | invalidJson
  | noMessage
  | message (chat_id uid : Int) (text : String)
deriving DecidableEq, Repr

/-- `handler.do_POST` (src/api/webhook.py lines 348-380): reads the
`X-Telegram-Bot-Api-Secret-Token` header into `telegram_signature`, then
parses the body (400 on bad JSON), runs `storage.clean_old_sessions()`,
runs `process_update`, and answers 200. The final component is the HTTP
status code. -/
def do_POST (cfg : Config) (og : Oracle) (st : Store) (body : Body)
    (telegram_signature : String) (now : Int) : Store × List Out × Nat :=
  match body with
  | Body.invalidJson => (st, [], 400)
  | Body.noMessage => (clean_old_sessions cfg now st, [], 200)
  | Body.message chat_id uid text =>
    let st1 := clean_old_sessions cfg now st
    let r := process_update cfg og st1 chat_id uid text now
    (r.1, r.2, 200)

/-! Helper lemmas about the `history[-N:]` sliding window. -/

lemma length_rtake (l : List Turn) (n : Nat) : (l.rtake n).length = min n l.length := by
  rw [List.rtake_eq_reverse_take_reverse]
  simp

lemma rtake_of_length_le {l : List Turn} {n : Nat} (h : l.length ≤ n) : l.rtake n = l := by
  unfold List.rtake
  rw [Nat.sub_eq_zero_of_le h, List.drop_zero]

lemma take_append_take {α : Type} (a b : List α) (n : Nat) :
    (a ++ b.take n).take n = (a ++ b).take n := by
  rw [List.take_append_eq_append_take, List.take_append_eq_append_take, List.take_take]
  rw [Nat.min_eq_left (Nat.sub_le n a.length)]

lemma rtake_append_rtake (l l2 : List Turn) (n : Nat) :
    (l.rtake n ++ l2).rtake n = (l ++ l2).rtake n := by
  rw [List.rtake_eq_reverse_take_reverse, List.rtake_eq_reverse_take_reverse,
    List.rtake_eq_reverse_take_reverse]
  rw [List.reverse_append, List.reverse_reverse, List.reverse_append]
  rw [take_append_take]

/-- Replay a sequence of `add_message(role, content)` calls (each stamped
with the clock value at call time) on a session. -/
def run_add_messages (cfg : Config) (s : UserSession)
    (msgs : List (String × String × Int)) : UserSession :=
  msgs.foldl (fun s m => add_message cfg s m.1 m.2.1 m.2.2) s

/-- The turns a sequence of `add_message` calls appends, in call order. -/
def turnsOf (msgs : List (String × String × Int)) : List Turn :=
  msgs.map (fun m => { role := m.1, content := m.2.1 })

lemma add_message_history_window (cfg : Config) (hN : 0 < cfg.MAX_CONVERSATION_LENGTH)
    (s : UserSession) (acc : List Turn) (r c : String) (now : Int)
    (hs : s.conversation_history = acc.rtake cfg.MAX_CONVERSATION_LENGTH) :
    (add_message cfg s r c now).conversation_history =
      (acc ++ [({ role := r, content := c } : Turn)]).rtake cfg.MAX_CONVERSATION_LENGTH := by
  set N := cfg.MAX_CONVERSATION_LENGTH with hNdef
  set t := ({ role := r, content := c } : Turn)
  show (if N < (s.conversation_history ++ [t]).length
      then pySliceLast (s.conversation_history ++ [t]) N
      else s.conversation_history ++ [t]) = (acc ++ [t]).rtake N
  rw [hs]
  by_cases hlt : N < (acc.rtake N ++ [t]).length
  · rw [if_pos hlt]
    unfold pySliceLast
    rw [if_neg (Nat.pos_iff_ne_zero.mp hN), rtake_append_rtake]
  · rw [if_neg hlt]
    push_neg at hlt
    rw [List.length_append, length_rtake, List.length_singleton] at hlt
    have hacc : acc.length ≤ N - 1 := by
      rcases Nat.le_total N acc.length with h | h
      · rw [Nat.min_eq_left h] at hlt
        omega
      · rw [Nat.min_eq_right h] at hlt
        omega
    have hacc2 : acc.length < N := by omega
    rw [rtake_of_length_le (Nat.le_of_lt hacc2)]
    rw [rtake_of_length_le]
    rw [List.length_append, List.length_singleton]
    omega

lemma run_add_messages_window (cfg : Config) (hN : 0 < cfg.MAX_CONVERSATION_LENGTH)
    (msgs : List (String × String × Int)) :
    ∀ (s : UserSession) (acc : List Turn),
      s.conversation_history = acc.rtake cfg.MAX_CONVERSATION_LENGTH →
      (run_add_messages cfg s msgs).conversation_history =
        (acc ++ turnsOf msgs).rtake cfg.MAX_CONVERSATION_LENGTH := by
  induction msgs with
  | nil =>
    intro s acc hs
    simpa [run_add_messages, turnsOf] using hs
  | cons m ms ih =>
    intro s acc hs
    have hstep := add_message_history_window cfg hN s acc m.1 m.2.1 m.2.2 hs
    have := ih (add_message cfg s m.1 m.2.1 m.2.2) (acc ++ [{ role := m.1, content := m.2.1 }]) hstep
    simpa [run_add_messages, turnsOf, List.append_assoc] using this

/-- C1: replaying any sequence of `add_message` calls on a fresh session
keeps the history equal to the last-`N` window (in insertion order) of all
appended turns, for the configured positive maximum
`N = MAX_CONVERSATION_LENGTH`; in particular its length never exceeds `N`.
Quantifying over all call sequences makes the bound hold after every call. -/
theorem C1_add_message_bounded_window (cfg : Config)
    (hN : 0 < cfg.MAX_CONVERSATION_LENGTH) (uid t0 : Int)
    (msgs : List (String × String × Int)) :
    (run_add_messages cfg (UserSession.new uid t0) msgs).conversation_history =
      (turnsOf msgs).rtake cfg.MAX_CONVERSATION_LENGTH ∧
    (run_add_messages cfg (UserSession.new uid t0) msgs).conversation_history.length ≤
      cfg.MAX_CONVERSATION_LENGTH := by
  have h := run_add_messages_window cfg hN msgs (UserSession.new uid t0) [] (by
    simp [UserSession.new])
  rw [List.nil_append] at h
  refine ⟨h, ?_⟩
  rw [h, length_rtake]
  exact Nat.min_le_left _ _

/-- Witness for C1: three calls with maximum 2 retain exactly the last two
turns, in order. -/
theorem C1_witness :
    (0 : Nat) < (2 : Nat) ∧
    (run_add_messages
        { MASTER_PASSWORD := none, DEFAULT_CLAUDE_API_KEY := none,
          MAX_CONVERSATION_LENGTH := 2, SESSION_TIMEOUT_HOURS := 24 }
        (UserSession.new 42 0)
        [("user", "a", 1), ("assistant", "b", 2), ("user", "c", 3)]).conversation_history =
      (turnsOf [("user", "a", 1), ("assistant", "b", 2), ("user", "c", 3)]).rtake 2 := by
  refine ⟨by decide, ?_⟩
  exact (C1_add_message_bounded_window
    { MASTER_PASSWORD := none, DEFAULT_CLAUDE_API_KEY := none,
      MAX_CONVERSATION_LENGTH := 2, SESSION_TIMEOUT_HOURS := 24 }
    (by decide) 42 0
    [("user", "a", 1), ("assistant", "b", 2), ("user", "c", 3)]).1

/-! Helper lemmas about dict lookup under the store operations. -/

lemma lookup_store_set_self (st : Store) (uid : Int) (s : UserSession) :
    (store_set st uid s).lookup uid = some s := by
  induction st with
  | nil => simp [store_set, List.lookup]
  | cons p t ih =>
    by_cases hk : p.1 = uid
    · simp [store_set, hk, List.lookup]
    · rw [store_set, if_neg hk]
      simp [List.lookup, beq_eq_false_iff_ne.mpr (Ne.symm hk)]
      exact ih

lemma lookup_store_set_ne (st : Store) (uid u : Int) (s : UserSession) (h : u ≠ uid) :
    (store_set st uid s).lookup u = st.lookup u := by
  induction st with
  | nil => simp [store_set, List.lookup, beq_eq_false_iff_ne.mpr h]
  | cons p t ih =>
    by_cases hk : p.1 = uid
    · rw [store_set, if_pos hk]
      simp [List.lookup, beq_eq_false_iff_ne.mpr h, hk]
    · rw [store_set, if_neg hk]
      by_cases hu : p.1 = u
      · simp [List.lookup, hu]
      · simp [List.lookup, beq_eq_false_iff_ne.mpr (Ne.symm hu)]
        exact ih

lemma lookup_store_set_isSome (st : Store) (uid u : Int) (s : UserSession)
    (h : (st.lookup u).isSome) : ((store_set st uid s).lookup u).isSome := by
  by_cases hu : u = uid
  · subst hu
    rw [lookup_store_set_self]
    rfl
  · rw [lookup_store_set_ne st uid u s hu]
    exact h

lemma get_or_create_lookup_self (st : Store) (uid : Int) (now : Int) :
    (get_or_create st uid now).2.lookup uid = some (get_or_create st uid now).1 := by
  unfold get_or_create
  cases h : st.lookup uid with
  | some s => simpa using h
  | none => simp [lookup_store_set_self]

lemma get_or_create_lookup_ne (st : Store) (uid u : Int) (now : Int) (h : u ≠ uid) :
    (get_or_create st uid now).2.lookup u = st.lookup u := by
  unfold get_or_create
  cases hl : st.lookup uid with
  | some s => simp
  | none => simp [lookup_store_set_ne _ _ _ _ h]

lemma get_or_create_fst (st : Store) (uid : Int) (now : Int) :
    (get_or_create st uid now).1 = (st.lookup uid).getD (UserSession.new uid now) := by
  unfold get_or_create
  cases hl : st.lookup uid <;> simp

lemma get_or_create_fst_of_some (st : Store) (uid : Int) (now : Int) (s : UserSession)
    (h : st.lookup uid = some s) : (get_or_create st uid now).1 = s := by
  rw [get_or_create_fst, h]
  rfl

lemma get_or_create_snd_of_some (st : Store) (uid : Int) (now : Int) (s : UserSession)
    (h : st.lookup uid = some s) : (get_or_create st uid now).2 = st := by
  unfold get_or_create
  rw [h]

lemma get_or_create_lookup_isSome (st : Store) (uid u : Int) (now : Int)
    (h : (st.lookup u).isSome) : ((get_or_create st uid now).2.lookup u).isSome := by
  by_cases hu : u = uid
  · subst hu
    rw [get_or_create_lookup_self]
    rfl
  · rw [get_or_create_lookup_ne st uid u now hu]
    exact h

/-- Keys of the store are pairwise distinct — the dict invariant. -/
def nodup_keys (st : Store) : Prop := (st.map Prod.fst).Nodup

lemma lookup_eq_none_iff (st : Store) (u : Int) :
    st.lookup u = none ↔ ∀ p ∈ st, p.1 ≠ u := by
  induction st with
  | nil => simp [List.lookup]
  | cons p t ih =>
    by_cases hk : p.1 = u
    · simp [List.lookup, hk]
    · simp [List.lookup, beq_eq_false_iff_ne.mpr (Ne.symm hk), ih, hk]

lemma mem_store_set (t : Store) (uid : Int) (s : UserSession) :
    ∀ q ∈ store_set t uid s, q.1 = uid ∨ q ∈ t := by
  induction t with
  | nil =>
    intro q hq
    simp [store_set] at hq
    left
    rw [hq]
  | cons r t2 ih =>
    by_cases hr : r.1 = uid
    · rw [store_set, if_pos hr]
      intro q hq
      rcases List.mem_cons.mp hq with hq | hq
      · left
        rw [hq]
      · right
        exact List.mem_cons_of_mem r hq
    · rw [store_set, if_neg hr]
      intro q hq
      rcases List.mem_cons.mp hq with hq | hq
      · right
        rw [hq]
        exact List.mem_cons_self r t2
      · rcases ih q hq with h1 | h1
        · left
          exact h1
        · right
          exact List.mem_cons_of_mem r h1

lemma nodup_keys_store_set (st : Store) (uid : Int) (s : UserSession)
    (h : nodup_keys st) : nodup_keys (store_set st uid s) := by
  induction st with
  | nil => simp [store_set, nodup_keys]
  | cons p t ih =>
    by_cases hk : p.1 = uid
    · rw [store_set, if_pos hk]
      unfold nodup_keys at h ⊢
      simpa [← hk] using h
    · rw [store_set, if_neg hk]
      unfold nodup_keys at h ⊢
      simp only [List.map_cons, List.nodup_cons] at h ⊢
      constructor
      · intro hmem
        rcases List.mem_map.mp hmem with ⟨q, hq, hq1⟩
        rcases mem_store_set t uid s q hq with h1 | h1
        · exact hk (hq1 ▸ h1 ▸ rfl)
        · exact h.1 (List.mem_map.mpr ⟨q, h1, hq1⟩)
      · exact ih h.2

lemma nodup_keys_get_or_create (st : Store) (uid : Int) (now : Int)
    (h : nodup_keys st) : nodup_keys (get_or_create st uid now).2 := by
  unfold get_or_create
  cases hl : st.lookup uid with
  | some s => simpa using h
  | none => simpa using nodup_keys_store_set st uid (UserSession.new uid now) h

lemma lookup_filter_of_none (st : Store) (u : Int) (p : Int × UserSession → Bool)
    (h : st.lookup u = none) : (st.filter p).lookup u = none := by
  rw [lookup_eq_none_iff] at h ⊢
  intro q hq
  exact h q (List.mem_of_mem_filter hq)

lemma lookup_filter_of_true (st : Store) (u : Int) (s : UserSession)
    (p : Int × UserSession → Bool) (h : st.lookup u = some s)
    (hp : p (u, s) = true) : (st.filter p).lookup u = some s := by
  induction st with
  | nil => simp [List.lookup] at h
  | cons q t ih =>
    obtain ⟨k, v⟩ := q
    by_cases hk : k = u
    · subst hk
      simp [List.lookup] at h
      subst h
      rw [List.filter_cons, if_pos hp]
      simp [List.lookup]
    · simp [List.lookup, beq_eq_false_iff_ne.mpr (Ne.symm hk)] at h
      rw [List.filter_cons]
      by_cases hq : p (k, v) = true
      · rw [if_pos hq]
        simp [List.lookup, beq_eq_false_iff_ne.mpr (Ne.symm hk)]
        exact ih h
      · rw [if_neg hq]
        exact ih h

lemma lookup_filter_of_false (st : Store) (u : Int) (s : UserSession)
    (p : Int × UserSession → Bool) (hnd : nodup_keys st) (h : st.lookup u = some s)
    (hp : p (u, s) = false) : (st.filter p).lookup u = none := by
  induction st with
  | nil => simp [List.lookup] at h
  | cons q t ih =>
    obtain ⟨k, v⟩ := q
    unfold nodup_keys at hnd
    simp only [List.map_cons, List.nodup_cons] at hnd
    by_cases hk : k = u
    · subst hk
      simp [List.lookup] at h
      subst h
      rw [List.filter_cons, if_neg (by simp [hp])]
      rw [lookup_eq_none_iff]
      intro q hq
      intro hq1
      exact hnd.1 (List.mem_map.mpr ⟨q, List.mem_of_mem_filter hq, hq1⟩)
    · simp [List.lookup, beq_eq_false_iff_ne.mpr (Ne.symm hk)] at h
      rw [List.filter_cons]
      by_cases hq : p (k, v) = true
      · rw [if_pos hq]
        simp only [List.lookup, beq_eq_false_iff_ne.mpr (Ne.symm hk)]
        exact ih hnd.2 h
      · rw [if_neg hq]
        exact ih hnd.2 h

/-- Every branch of `process_update` leaves the store alone, only runs
`get_or_create`, or additionally rebinds the sender's own entry: no branch
deletes an entry. -/
lemma process_update_store_shape (cfg : Config) (og : Oracle) (st : Store)
    (chat_id uid : Int) (text : String) (now : Int) :
    (process_update cfg og st chat_id uid text now).1 = st ∨
    (process_update cfg og st chat_id uid text now).1 = (get_or_create st uid now).2 ∨
    ∃ s, (process_update cfg og st chat_id uid text now).1 =
      store_set (get_or_create st uid now).2 uid s := by
  cases hroute : route text with
  | start =>
    simp only [process_update, hroute, handle_start_command]
    right; right
    exact ⟨_, rfl⟩
  | reset =>
    simp only [process_update, hroute, handle_reset_command]
    split_ifs with h1
    · right; left; rfl
    · right; right
      exact ⟨_, rfl⟩
  | help =>
    simp only [process_update, hroute]
    left; trivial
  | regular =>
    simp only [process_update, hroute, handle_regular_message]
    split_ifs with h1 h2 h3 h4 h5
    · right; right
      exact ⟨_, rfl⟩
    · right; left; rfl
    · right; right
      exact ⟨_, rfl⟩
    · right; left; rfl
    · right; left; rfl
    · cases hchat : og.chat with
      | ok reply =>
        simp only [hchat]
        right; right
        exact ⟨_, rfl⟩
      | error e =>
        simp only [hchat]
        right; right
        exact ⟨_, rfl⟩
  | unmatched =>
    simp only [process_update, hroute]
    left; trivial

lemma process_update_lookup_isSome (cfg : Config) (og : Oracle) (st : Store)
    (chat_id uid : Int) (text : String) (now : Int) (u : Int)
    (h : (st.lookup u).isSome) :
    ((process_update cfg og st chat_id uid text now).1.lookup u).isSome := by
  rcases process_update_store_shape cfg og st chat_id uid text now with hs | hs | ⟨s, hs⟩
  · rw [hs]
    exact h
  · rw [hs]
    exact get_or_create_lookup_isSome st uid u now h
  · rw [hs]
    exact lookup_store_set_isSome _ uid u s (get_or_create_lookup_isSome st uid u now h)

lemma nodup_keys_process_update (cfg : Config) (og : Oracle) (st : Store)
    (chat_id uid : Int) (text : String) (now : Int) (h : nodup_keys st) :
    nodup_keys (process_update cfg og st chat_id uid text now).1 := by
  rcases process_update_store_shape cfg og st chat_id uid text now with hs | hs | ⟨s, hs⟩
  · rw [hs]
    exact h
  · rw [hs]
    exact nodup_keys_get_or_create st uid now h
  · rw [hs]
    exact nodup_keys_store_set _ uid s (nodup_keys_get_or_create st uid now h)

/-- C6: the expiry sweep `clean_old_sessions(now)` removes a stored session
exactly when `now - last_activity` strictly exceeds the configured timeout,
keeps it (unchanged) otherwise, and no `process_update` event ever removes a
store entry. -/
theorem C6_sweep_evicts_iff_strictly_idle (cfg : Config) (st : Store) (now : Int)
    (uid : Int) (s : UserSession) (hnd : nodup_keys st)
    (hs : st.lookup uid = some s) :
    ((clean_old_sessions cfg now st).lookup uid = none ↔
      timeout_delta cfg < now - s.last_activity) ∧
    ((clean_old_sessions cfg now st).lookup uid = some s ↔
      now - s.last_activity ≤ timeout_delta cfg) ∧
    (∀ (og : Oracle) (chat_id uid2 : Int) (text : String) (now2 : Int),
      ((process_update cfg og st chat_id uid2 text now2).1.lookup uid).isSome) := by
  unfold clean_old_sessions
  refine ⟨?_, ?_, ?_⟩
  · by_cases hidle : timeout_delta cfg < now - s.last_activity
    · simp only [hidle, iff_true]
      exact lookup_filter_of_false st uid s _ hnd hs (by simp [hidle, not_le.mpr hidle])
    · simp only [hidle, iff_false]
      rw [lookup_filter_of_true st uid s _ hs (by simp [not_lt.mp hidle])]
      simp
  · by_cases hidle : timeout_delta cfg < now - s.last_activity
    · simp only [not_le.mpr hidle, iff_false]
      rw [lookup_filter_of_false st uid s _ hnd hs (by simp [hidle, not_le.mpr hidle])]
      simp
    · simp only [not_lt.mp hidle, iff_true]
      exact lookup_filter_of_true st uid s _ hs (by simp [not_lt.mp hidle])
  · intro og chat_id uid2 text now2
    exact process_update_lookup_isSome cfg og st chat_id uid2 text now2 uid
      (by rw [hs]; rfl)

/-- Witness for C6: with the default 24-hour timeout, a session idle 25 hours
(90000 s) is evicted and one idle 23 hours (82800 s) survives. -/
theorem C6_witness :
    (clean_old_sessions
        { MASTER_PASSWORD := none, DEFAULT_CLAUDE_API_KEY := none,
          MAX_CONVERSATION_LENGTH := 20, SESSION_TIMEOUT_HOURS := 24 }
        90000 [(1, UserSession.new 1 0)]).lookup 1 = none ∧
    (clean_old_sessions
        { MASTER_PASSWORD := none, DEFAULT_CLAUDE_API_KEY := none,
          MAX_CONVERSATION_LENGTH := 20, SESSION_TIMEOUT_HOURS := 24 }
        82800 [(1, UserSession.new 1 0)]).lookup 1 = some (UserSession.new 1 0) := by
  constructor
  · exact (C6_sweep_evicts_iff_strictly_idle
      { MASTER_PASSWORD := none, DEFAULT_CLAUDE_API_KEY := none,
        MAX_CONVERSATION_LENGTH := 20, SESSION_TIMEOUT_HOURS := 24 }
      [(1, UserSession.new 1 0)] 90000 1 (UserSession.new 1 0)
      (by simp [nodup_keys]) (by simp [List.lookup])).1.mpr (by decide)
  · exact (C6_sweep_evicts_iff_strictly_idle
      { MASTER_PASSWORD := none, DEFAULT_CLAUDE_API_KEY := none,
        MAX_CONVERSATION_LENGTH := 20, SESSION_TIMEOUT_HOURS := 24 }
      [(1, UserSession.new 1 0)] 82800 1 (UserSession.new 1 0)
      (by simp [nodup_keys]) (by simp [List.lookup])).2.1.mpr (by decide)

/-! Field-level facts about the session operations. -/

@[simp] lemma reset_conversation_authenticated (s : UserSession) :
    (reset_conversation s).authenticated = s.authenticated := rfl

@[simp] lemma reset_conversation_api_key (s : UserSession) :
    (reset_conversation s).api_key = s.api_key := rfl

@[simp] lemma reset_conversation_last_activity (s : UserSession) :
    (reset_conversation s).last_activity = s.last_activity := rfl

@[simp] lemma reset_conversation_claude_client (s : UserSession) :
    (reset_conversation s).claude_client = s.claude_client := rfl

@[simp] lemma reset_conversation_history (s : UserSession) :
    (reset_conversation s).conversation_history = [] := rfl

@[simp] lemma add_message_authenticated (cfg : Config) (s : UserSession)
    (r c : String) (now : Int) : (add_message cfg s r c now).authenticated = s.authenticated := rfl

@[simp] lemma add_message_api_key (cfg : Config) (s : UserSession)
    (r c : String) (now : Int) : (add_message cfg s r c now).api_key = s.api_key := rfl

@[simp] lemma add_message_claude_client (cfg : Config) (s : UserSession)
    (r c : String) (now : Int) : (add_message cfg s r c now).claude_client = s.claude_client := rfl

@[simp] lemma add_message_last_activity (cfg : Config) (s : UserSession)
    (r c : String) (now : Int) : (add_message cfg s r c now).last_activity = now := rfl

@[simp] lemma authenticate_with_api_key_fields (s : UserSession) (k : String) :
    (authenticate_with_api_key s k).1.authenticated = true ∧
    (authenticate_with_api_key s k).1.api_key = some k ∧
    (authenticate_with_api_key s k).1.last_activity = s.last_activity :=
  ⟨rfl, rfl, rfl⟩

/-- Authentication flag recorded in the store for an identity (`false` when
the identity has no session). -/
def authOf (st : Store) (u : Int) : Bool :=
  match st.lookup u with
  | some s => s.authenticated
  | none => false

lemma authOf_store_set_self (st : Store) (uid : Int) (s : UserSession) :
    authOf (store_set st uid s) uid = s.authenticated := by
  unfold authOf
  rw [lookup_store_set_self]

lemma authOf_store_set_ne (st : Store) (uid u : Int) (s : UserSession) (h : u ≠ uid) :
    authOf (store_set st uid s) u = authOf st u := by
  unfold authOf
  rw [lookup_store_set_ne _ _ _ _ h]

lemma authOf_get_or_create_ne (st : Store) (uid u : Int) (now : Int) (h : u ≠ uid) :
    authOf (get_or_create st uid now).2 u = authOf st u := by
  unfold authOf
  rw [get_or_create_lookup_ne _ _ _ _ h]

lemma authOf_get_or_create_self (st : Store) (uid : Int) (now : Int) :
    authOf (get_or_create st uid now).2 uid = (get_or_create st uid now).1.authenticated := by
  unfold authOf
  rw [get_or_create_lookup_self]

lemma get_or_create_fst_authenticated (st : Store) (uid : Int) (now : Int) :
    (get_or_create st uid now).1.authenticated = authOf st uid := by
  rw [get_or_create_fst]
  unfold authOf
  cases st.lookup uid <;> simp [UserSession.new]

lemma route_regular_startswith (text : String) (h : route text = Route.regular) :
    startswith text "/" = false := by
  unfold route at h
  by_cases h1 : text = "/start"
  · simp [h1] at h
  · by_cases h2 : text = "/reset"
    · simp [h1, h2] at h
    · by_cases h3 : text = "/help"
      · simp [h1, h2, h3] at h
      · simp [h1, h2, h3] at h
        exact h

/-- C3: the authenticated flag is one-way under event processing — once true
for an identity it stays true after any further event from anyone — and
every command event (text starting with `/`, including `/start`) leaves the
flag of every identity exactly unchanged, so only the non-command
authentication path can flip it. -/
theorem C3_authenticated_one_way (cfg : Config) (og : Oracle) (st : Store)
    (chat_id uid : Int) (text : String) (now : Int) (u : Int) :
    (authOf st u = true →
      authOf (process_update cfg og st chat_id uid text now).1 u = true) ∧
    (startswith text "/" = true →
      authOf (process_update cfg og st chat_id uid text now).1 u = authOf st u) := by
  by_cases hu : u = uid
  case neg =>
    have heq : authOf (process_update cfg og st chat_id uid text now).1 u = authOf st u := by
      rcases process_update_store_shape cfg og st chat_id uid text now with hs | hs | ⟨s, hs⟩
      · rw [hs]
      · rw [hs, authOf_get_or_create_ne st uid u now hu]
      · rw [hs, authOf_store_set_ne _ uid u s hu, authOf_get_or_create_ne st uid u now hu]
    exact ⟨fun h => heq.trans h, fun _ => heq⟩
  case pos =>
    subst hu
    cases hroute : route text with
    | start =>
      have heq : authOf (process_update cfg og st chat_id u text now).1 u = authOf st u := by
        simp only [process_update, hroute, handle_start_command]
        rw [authOf_store_set_self, reset_conversation_authenticated,
          get_or_create_fst_authenticated]
      exact ⟨fun h => heq.trans h, fun _ => heq⟩
    | reset =>
      have heq : authOf (process_update cfg og st chat_id u text now).1 u = authOf st u := by
        simp only [process_update, hroute, handle_reset_command]
        split_ifs with h1
        · rw [authOf_get_or_create_self, get_or_create_fst_authenticated]
        · rw [authOf_store_set_self, reset_conversation_authenticated,
            get_or_create_fst_authenticated]
      exact ⟨fun h => heq.trans h, fun _ => heq⟩
    | help =>
      have heq : authOf (process_update cfg og st chat_id u text now).1 u = authOf st u := by
        simp only [process_update, hroute]
      exact ⟨fun h => heq.trans h, fun _ => heq⟩
    | regular =>
      constructor
      · intro hauth
        have hfst : (get_or_create st u now).1.authenticated = true := by
          rw [get_or_create_fst_authenticated, hauth]
        simp only [process_update, hroute, handle_regular_message, hfst, Bool.not_true]
        by_cases hcli : (get_or_create st u now).1.claude_client = true
        · simp only [hcli, Bool.not_true, Bool.false_eq_true, if_false]
          cases hchat : og.chat with
          | ok reply =>
            simp only [hchat]
            rw [authOf_store_set_self]
            simp [hfst]
          | error e =>
            simp only [hchat]
            rw [authOf_store_set_self]
            simp [hfst]
        · have hcli2 : (get_or_create st u now).1.claude_client = false :=
            Bool.not_eq_true _ ▸ Bool.eq_false_iff.mpr hcli
          simp only [hcli2, Bool.not_false, Bool.false_eq_true, if_false, if_true]
          rw [authOf_get_or_create_self, hfst]
      · intro hcmd
        rw [route_regular_startswith text hroute] at hcmd
        exact absurd hcmd (by decide)
    | unmatched =>
      have heq : authOf (process_update cfg og st chat_id u text now).1 u = authOf st u := by
        simp only [process_update, hroute]
      exact ⟨fun h => heq.trans h, fun _ => heq⟩

/-- Witness for C3: an authenticated session stays authenticated across a
`/start` event, whose processing also leaves the flag unchanged. -/
theorem C3_witness :
    authOf [(5, (authenticate_with_api_key (UserSession.new 5 0) "sk-ant-k").1)] 5 = true ∧
    authOf (process_update
      { MASTER_PASSWORD := none, DEFAULT_CLAUDE_API_KEY := none,
        MAX_CONVERSATION_LENGTH := 20, SESSION_TIMEOUT_HOURS := 24 }
      { probe_ok := false, chat := Except.error "boom", thinking_id := none }
      [(5, (authenticate_with_api_key (UserSession.new 5 0) "sk-ant-k").1)]
      5 5 "/start" 99).1 5 = true := by
  refine ⟨by decide, ?_⟩
  exact (C3_authenticated_one_way
    { MASTER_PASSWORD := none, DEFAULT_CLAUDE_API_KEY := none,
      MAX_CONVERSATION_LENGTH := 20, SESSION_TIMEOUT_HOURS := 24 }
    { probe_ok := false, chat := Except.error "boom", thinking_id := none }
    [(5, (authenticate_with_api_key (UserSession.new 5 0) "sk-ant-k").1)]
    5 5 "/start" 99 5).1 (by decide)

/-- C7: the command dispatch is exact, case-sensitive and first-match — each
command handler is selected precisely on character-for-character equality
with its command, and any other text beginning with `/` selects no handler:
processing it returns the store unchanged and sends nothing. -/
theorem C7_router_exact_first_match (text : String) :
    (route text = Route.start ↔ text = "/start") ∧
    (route text = Route.reset ↔ text = "/reset") ∧
    (route text = Route.help ↔ text = "/help") ∧
    (startswith text "/" = true → text ≠ "/start" → text ≠ "/reset" → text ≠ "/help" →
      route text = Route.unmatched ∧
      ∀ (cfg : Config) (og : Oracle) (st : Store) (chat_id uid : Int) (now : Int),
        process_update cfg og st chat_id uid text now = (st, [])) := by
  by_cases h1 : text = "/start"
  · subst h1
    refine ⟨by simp [route], by simp [route], by simp [route], ?_⟩
    intro _ habs
    exact absurd rfl habs
  · by_cases h2 : text = "/reset"
    · subst h2
      refine ⟨by simp [route], by simp [route], by simp [route], ?_⟩
      intro _ _ habs
      exact absurd rfl habs
    · by_cases h3 : text = "/help"
      · subst h3
        refine ⟨by simp [route], by simp [route], by simp [route], ?_⟩
        intro _ _ _ habs
        exact absurd rfl habs
      · by_cases h4 : startswith text "/" = true
        · have hroute : route text = Route.unmatched := by
            simp [route, h1, h2, h3, h4]
          refine ⟨by simp [hroute, h1], by simp [hroute, h2], by simp [hroute, h3], ?_⟩
          intro _ _ _ _
          refine ⟨hroute, ?_⟩
          intro cfg og st chat_id uid now
          simp [process_update, hroute]
        · have hroute : route text = Route.regular := by
            simp only [route, if_neg h1, if_neg h2, if_neg h3]
            rw [Bool.not_eq_true] at h4
            simp [h4]
          refine ⟨by simp [hroute, h1], by simp [hroute, h2], by simp [hroute, h3], ?_⟩
          intro hcmd
          exact absurd hcmd h4

/-- Witness for C7: the unknown command `/foo` matches no handler and its
processing mutates nothing and replies nothing. -/
theorem C7_witness :
    route "/foo" = Route.unmatched ∧
    process_update
      { MASTER_PASSWORD := none, DEFAULT_CLAUDE_API_KEY := none,
        MAX_CONVERSATION_LENGTH := 20, SESSION_TIMEOUT_HOURS := 24 }
      { probe_ok := false, chat := Except.error "boom", thinking_id := none }
      [] 1 2 "/foo" 0 = ([], []) := by
  have h := (C7_router_exact_first_match "/foo").2.2.2 (by decide) (by decide)
    (by decide) (by decide)
  exact ⟨h.1, h.2
    { MASTER_PASSWORD := none, DEFAULT_CLAUDE_API_KEY := none,
      MAX_CONVERSATION_LENGTH := 20, SESSION_TIMEOUT_HOURS := 24 }
    { probe_ok := false, chat := Except.error "boom", thinking_id := none }
    [] 1 2 0⟩

/-- C9: `do_POST` reads the `X-Telegram-Bot-Api-Secret-Token` header but
`verify_webhook` is called on no path, so the resulting store, outbound
messages and status code are identical for any two header values, and a
well-formed message update is fully processed (status 200) whatever the
header carries. -/
theorem C9_signature_never_checked (cfg : Config) (og : Oracle) (st : Store)
    (body : Body) (now : Int) (sig1 sig2 : String) :
    do_POST cfg og st body sig1 now = do_POST cfg og st body sig2 now ∧
    (∀ (chat_id uid : Int) (text : String) (sig : String),
      do_POST cfg og st (Body.message chat_id uid text) sig now =
        ((process_update cfg og (clean_old_sessions cfg now st) chat_id uid text now).1,
         (process_update cfg og (clean_old_sessions cfg now st) chat_id uid text now).2,
         200)) := by
  refine ⟨rfl, ?_⟩
  intro chat_id uid text sig
  rfl

/-- C8 counterexample: the claim says an explicit reset updates
`last_activity` to the current time; but processing `/reset` for an
authenticated session whose `last_activity` is 0 at current time 5 leaves
`last_activity = 0`, because `reset_conversation` only clears the history. -/
theorem C8_counterexample :
    (process_update
        { MASTER_PASSWORD := none, DEFAULT_CLAUDE_API_KEY := none,
          MAX_CONVERSATION_LENGTH := 20, SESSION_TIMEOUT_HOURS := 24 }
        { probe_ok := false, chat := Except.error "boom", thinking_id := none }
        [(7, (authenticate_with_api_key (UserSession.new 7 0) "sk-ant-x").1)]
        7 7 "/reset" 5).1.lookup 7 =
      some (reset_conversation (authenticate_with_api_key (UserSession.new 7 0) "sk-ant-x").1) ∧
    (reset_conversation (authenticate_with_api_key (UserSession.new 7 0) "sk-ant-x").1).last_activity
      = 0 ∧
    ((0 : Int) ≠ 5) := by
  decide

/-- C8 as amended: an explicit reset (`reset_conversation`, reached from
`/start` or an authenticated `/reset`) clears the history and leaves
authentication, credential and `last_activity` all untouched (it does not
refresh `last_activity`). -/
theorem C8_reset_clears_history_only (cfg : Config) (og : Oracle) (st : Store)
    (chat_id uid : Int) (now : Int) (s : UserSession)
    (hs : st.lookup uid = some s) (hauth : s.authenticated = true) :
    (process_update cfg og st chat_id uid "/reset" now).1.lookup uid =
      some (reset_conversation s) ∧
    (process_update cfg og st chat_id uid "/start" now).1.lookup uid =
      some (reset_conversation s) ∧
    (reset_conversation s).conversation_history = [] ∧
    (reset_conversation s).authenticated = s.authenticated ∧
    (reset_conversation s).api_key = s.api_key ∧
    (reset_conversation s).last_activity = s.last_activity := by
  have hreset : route "/reset" = Route.reset := by decide
  have hstart : route "/start" = Route.start := by decide
  have hfst := get_or_create_fst_of_some st uid now s hs
  have hsnd := get_or_create_snd_of_some st uid now s hs
  refine ⟨?_, ?_, rfl, rfl, rfl, rfl⟩
  · simp only [process_update, hreset, handle_reset_command, hfst, hsnd, hauth,
      Bool.not_true, Bool.false_eq_true, if_false]
    exact lookup_store_set_self st uid (reset_conversation s)
  · simp only [process_update, hstart, handle_start_command, hfst, hsnd]
    exact lookup_store_set_self st uid (reset_conversation s)

/-- Witness for C8 (amended): concrete authenticated session at identity 9. -/
theorem C8_witness :
    (process_update
        { MASTER_PASSWORD := none, DEFAULT_CLAUDE_API_KEY := none,
          MAX_CONVERSATION_LENGTH := 20, SESSION_TIMEOUT_HOURS := 24 }
        { probe_ok := false, chat := Except.error "boom", thinking_id := none }
        [(9, (authenticate_with_api_key (UserSession.new 9 3) "sk-ant-y").1)]
        9 9 "/reset" 50).1.lookup 9 =
      some (reset_conversation (authenticate_with_api_key (UserSession.new 9 3) "sk-ant-y").1) ∧
    (reset_conversation (authenticate_with_api_key (UserSession.new 9 3) "sk-ant-y").1).last_activity
      = 3 := by
  refine ⟨(C8_reset_clears_history_only
    { MASTER_PASSWORD := none, DEFAULT_CLAUDE_API_KEY := none,
      MAX_CONVERSATION_LENGTH := 20, SESSION_TIMEOUT_HOURS := 24 }
    { probe_ok := false, chat := Except.error "boom", thinking_id := none }
    [(9, (authenticate_with_api_key (UserSession.new 9 3) "sk-ant-y").1)]
    9 9 50 (authenticate_with_api_key (UserSession.new 9 3) "sk-ant-y").1
    (by decide) (by decide)).1, by decide⟩

/-- The credential/authentication invariant: a bound key implies the flag,
and — provided a non-empty default credential is configured — the flag
implies a non-empty bound key. -/
def SessionInv (cfg : Config) (s : UserSession) : Prop :=
  (s.api_key.isSome = true → s.authenticated = true) ∧
  (strTruthy cfg.DEFAULT_CLAUDE_API_KEY = true → s.authenticated = true →
    strTruthy s.api_key = true)

lemma SessionInv_new (cfg : Config) (uid now : Int) :
    SessionInv cfg (UserSession.new uid now) := by
  simp [SessionInv, UserSession.new]

lemma SessionInv_reset (cfg : Config) (s : UserSession) (h : SessionInv cfg s) :
    SessionInv cfg (reset_conversation s) := by
  simpa [SessionInv] using h

lemma SessionInv_add_message (cfg cfg2 : Config) (s : UserSession) (r c : String)
    (now : Int) (h : SessionInv cfg s) :
    SessionInv cfg (add_message cfg2 s r c now) := by
  simpa [SessionInv] using h

lemma startswith_sk_ne_empty (t : String) (h : startswith t "sk-ant-" = true) :
    (t ≠ "") := by
  intro heq
  subst heq
  exact absurd h (by decide)

lemma SessionInv_auth_api_key (cfg : Config) (s : UserSession) (k : String)
    (hk : startswith k "sk-ant-" = true) :
    SessionInv cfg (authenticate_with_api_key s k).1 := by
  unfold SessionInv authenticate_with_api_key
  simp [strTruthy, startswith_sk_ne_empty k hk]

lemma SessionInv_auth_password (cfg : Config) (s : UserSession) (pw : String)
    (h : SessionInv cfg s) :
    SessionInv cfg (authenticate_with_password cfg s pw).1 := by
  unfold authenticate_with_password
  split_ifs with hok hcli
  · exact ⟨fun _ => rfl, fun hd _ => hd⟩
  · exact ⟨fun _ => rfl, fun hd _ => hd⟩
  · exact h

lemma SessionInv_get_or_create (cfg : Config) (st : Store) (uid : Int) (now : Int)
    (hinv : ∀ u s, st.lookup u = some s → SessionInv cfg s) :
    SessionInv cfg (get_or_create st uid now).1 := by
  rw [get_or_create_fst]
  cases hl : st.lookup uid with
  | some s =>
    simpa using hinv uid s hl
  | none =>
    simpa using SessionInv_new cfg uid now

/-- C2 counterexample: with a configured master password but no configured
default credential, a successful password authentication yields
`authenticated = true` with `api_key = None`, breaking the claimed
"credential set iff authenticated" invariant. -/
theorem C2_counterexample :
    ((authenticate_with_password
        { MASTER_PASSWORD := some "secret123", DEFAULT_CLAUDE_API_KEY := none,
          MAX_CONVERSATION_LENGTH := 20, SESSION_TIMEOUT_HOURS := 24 }
        (UserSession.new 3 0) "secret123").2 = true) ∧
    ((authenticate_with_password
        { MASTER_PASSWORD := some "secret123", DEFAULT_CLAUDE_API_KEY := none,
          MAX_CONVERSATION_LENGTH := 20, SESSION_TIMEOUT_HOURS := 24 }
        (UserSession.new 3 0) "secret123").1.authenticated = true) ∧
    ((authenticate_with_password
        { MASTER_PASSWORD := some "secret123", DEFAULT_CLAUDE_API_KEY := none,
          MAX_CONVERSATION_LENGTH := 20, SESSION_TIMEOUT_HOURS := 24 }
        (UserSession.new 3 0) "secret123").1.api_key = none) := by
  decide

/-- C2 as amended: across every reachable store, a bound credential implies
the authenticated flag; and provided the default credential is configured
non-empty, authenticated also implies a non-empty bound credential (the
credential-probe path always binds its non-empty probed key; the password
path binds `DEFAULT_CLAUDE_API_KEY`, which may be unset, in which case an
authenticated session without a credential arises and is handled
defensively by the chat handler). -/
theorem C2_credential_iff_authenticated_amended (cfg : Config) (og : Oracle)
    (st : Store) (chat_id uid : Int) (text : String) (now : Int)
    (hinv : ∀ u s, st.lookup u = some s → SessionInv cfg s) :
    ∀ u s2, (process_update cfg og st chat_id uid text now).1.lookup u = some s2 →
      SessionInv cfg s2 := by
  intro u s2 hlk
  have hgoc := SessionInv_get_or_create cfg st uid now hinv
  have hgoc_store : ∀ v s3, (get_or_create st uid now).2.lookup v = some s3 →
      SessionInv cfg s3 := by
    intro v s3 hv
    by_cases hvu : v = uid
    · subst hvu
      rw [get_or_create_lookup_self] at hv
      exact Option.some.inj hv ▸ hgoc
    · rw [get_or_create_lookup_ne st uid v now hvu] at hv
      exact hinv v s3 hv
  have hset : ∀ (x : UserSession), SessionInv cfg x →
      ∀ v s3, (store_set (get_or_create st uid now).2 uid x).lookup v = some s3 →
      SessionInv cfg s3 := by
    intro x hx v s3 hv
    by_cases hvu : v = uid
    · subst hvu
      rw [lookup_store_set_self] at hv
      exact Option.some.inj hv ▸ hx
    · rw [lookup_store_set_ne _ uid v x hvu] at hv
      exact hgoc_store v s3 hv
  cases hroute : route text with
  | start =>
    simp only [process_update, hroute, handle_start_command] at hlk
    exact hset _ (SessionInv_reset cfg _ hgoc) u s2 hlk
  | reset =>
    simp only [process_update, hroute, handle_reset_command] at hlk
    split_ifs at hlk
    · exact hgoc_store u s2 hlk
    · exact hset _ (SessionInv_reset cfg _ hgoc) u s2 hlk
  | help =>
    simp only [process_update, hroute] at hlk
    exact hinv u s2 hlk
  | regular =>
    simp only [process_update, hroute, handle_regular_message] at hlk
    split_ifs at hlk with h1 h2 h3 h4 h5
    · exact hset _ (SessionInv_auth_api_key cfg _ text h2) u s2 hlk
    · exact hgoc_store u s2 hlk
    · exact hset _ (SessionInv_auth_password cfg _ text hgoc) u s2 hlk
    · exact hgoc_store u s2 hlk
    · exact hgoc_store u s2 hlk
    · cases hchat : og.chat with
      | ok reply =>
        rw [hchat] at hlk
        simp only at hlk
        exact hset _ (SessionInv_add_message cfg cfg _ "assistant" reply now
          (SessionInv_add_message cfg cfg _ "user" text now hgoc)) u s2 hlk
      | error e =>
        rw [hchat] at hlk
        simp only at hlk
        exact hset _ (SessionInv_add_message cfg cfg _ "user" text now hgoc) u s2 hlk
  | unmatched =>
    simp only [process_update, hroute] at hlk
    exact hinv u s2 hlk

/-- Witness for C2 (amended): an empty store trivially satisfies the
invariant hypothesis; after a successful credential-probe event the stored
session still satisfies the invariant. -/
theorem C2_witness :
    SessionInv
      { MASTER_PASSWORD := none, DEFAULT_CLAUDE_API_KEY := none,
        MAX_CONVERSATION_LENGTH := 20, SESSION_TIMEOUT_HOURS := 24 }
      (authenticate_with_api_key (UserSession.new 4 0) "sk-ant-w").1 := by
  have h := C2_credential_iff_authenticated_amended
    { MASTER_PASSWORD := none, DEFAULT_CLAUDE_API_KEY := none,
      MAX_CONVERSATION_LENGTH := 20, SESSION_TIMEOUT_HOURS := 24 }
    { probe_ok := true, chat := Except.error "boom", thinking_id := none }
    [] 4 4 "sk-ant-w" 0
    (by intro u s h; simp [List.lookup] at h)
    4 (authenticate_with_api_key (UserSession.new 4 0) "sk-ant-w").1
  exact h (by decide)

lemma route_of_not_slash (text : String) (h : startswith text "/" = false) :
    route text = Route.regular := by
  have h1 : text ≠ "/start" := by
    intro he
    subst he
    exact absurd h (by decide)
  have h2 : text ≠ "/reset" := by
    intro he
    subst he
    exact absurd h (by decide)
  have h3 : text ≠ "/help" := by
    intro he
    subst he
    exact absurd h (by decide)
  simp [route, h1, h2, h3, h]

lemma add_message_history_of_room (cfg : Config) (s : UserSession) (r c : String)
    (now : Int) (h : s.conversation_history.length < cfg.MAX_CONVERSATION_LENGTH) :
    (add_message cfg s r c now).conversation_history =
      s.conversation_history ++ [({ role := r, content := c } : Turn)] := by
  show (if cfg.MAX_CONVERSATION_LENGTH <
        (s.conversation_history ++ [({ role := r, content := c } : Turn)]).length
      then pySliceLast (s.conversation_history ++ [({ role := r, content := c } : Turn)])
        cfg.MAX_CONVERSATION_LENGTH
      else s.conversation_history ++ [({ role := r, content := c } : Turn)]) =
    s.conversation_history ++ [({ role := r, content := c } : Turn)]
  rw [if_neg]
  simp only [List.length_append, List.length_singleton]
  omega

lemma truncate4096_of_length_le (t : String) (h : t.data.length ≤ 4096) :
    truncate4096 t = t := by
  unfold truncate4096
  rw [List.take_of_length_le h]

lemma add_message_history_suffix (cfg : Config) (s : UserSession) (r c : String)
    (now : Int) :
    (add_message cfg s r c now).conversation_history <:+
      s.conversation_history ++ [({ role := r, content := c } : Turn)] := by
  show (if cfg.MAX_CONVERSATION_LENGTH <
        (s.conversation_history ++ [({ role := r, content := c } : Turn)]).length
      then pySliceLast (s.conversation_history ++ [({ role := r, content := c } : Turn)])
        cfg.MAX_CONVERSATION_LENGTH
      else s.conversation_history ++ [({ role := r, content := c } : Turn)]) <:+
    s.conversation_history ++ [({ role := r, content := c } : Turn)]
  split_ifs with h
  · unfold pySliceLast
    split_ifs with h0
    · exact List.suffix_refl _
    · unfold List.rtake
      exact List.drop_suffix _ _
  · exact List.suffix_refl _

/-- C4 counterexample: the claimed equality "history after the failed attempt
equals history before plus exactly the one user turn" fails for an
at-capacity session (20 turns under the default maximum 20): appending the
user turn trims away the oldest turn, so the resulting history differs from
`before ++ [user turn]` and stays at 20 turns instead of 21. -/
theorem C4_counterexample :
    (process_update
        { MASTER_PASSWORD := none, DEFAULT_CLAUDE_API_KEY := none,
          MAX_CONVERSATION_LENGTH := 20, SESSION_TIMEOUT_HOURS := 24 }
        { probe_ok := false, chat := Except.error "boom", thinking_id := some 11 }
        [(7, ({ user_id := 7, authenticated := true, api_key := some "sk-ant-x",
                conversation_history :=
                  List.replicate 20 ({ role := "user", content := "x" } : Turn),
                last_activity := 0, claude_client := true } : UserSession))]
        7 7 "hi" 2).1.lookup 7 =
      some (add_message
        { MASTER_PASSWORD := none, DEFAULT_CLAUDE_API_KEY := none,
          MAX_CONVERSATION_LENGTH := 20, SESSION_TIMEOUT_HOURS := 24 }
        ({ user_id := 7, authenticated := true, api_key := some "sk-ant-x",
           conversation_history :=
             List.replicate 20 ({ role := "user", content := "x" } : Turn),
           last_activity := 0, claude_client := true } : UserSession) "user" "hi" 2) ∧
    (add_message
        { MASTER_PASSWORD := none, DEFAULT_CLAUDE_API_KEY := none,
          MAX_CONVERSATION_LENGTH := 20, SESSION_TIMEOUT_HOURS := 24 }
        ({ user_id := 7, authenticated := true, api_key := some "sk-ant-x",
           conversation_history :=
             List.replicate 20 ({ role := "user", content := "x" } : Turn),
           last_activity := 0, claude_client := true } : UserSession)
        "user" "hi" 2).conversation_history ≠
      List.replicate 20 ({ role := "user", content := "x" } : Turn) ++
        [({ role := "user", content := "hi" } : Turn)] ∧
    (add_message
        { MASTER_PASSWORD := none, DEFAULT_CLAUDE_API_KEY := none,
          MAX_CONVERSATION_LENGTH := 20, SESSION_TIMEOUT_HOURS := 24 }
        ({ user_id := 7, authenticated := true, api_key := some "sk-ant-x",
           conversation_history :=
             List.replicate 20 ({ role := "user", content := "x" } : Turn),
           last_activity := 0, claude_client := true } : UserSession)
        "user" "hi" 2).conversation_history.length = 20 := by
  decide

/-- C4 as amended: when the chat completion call fails for an authenticated
session with a client, no `assistant` turn is appended and no retry occurs
(the single oracle outcome is consumed once): the stored session is exactly
what the step-1 `add_message(user, text)` alone produces — its history is a
suffix of `before ++ [user turn]`, equal to it whenever the history is below
the configured maximum and trimmed of the oldest turn at capacity — and the
outputs are the working indicator, its deletion, and one error message,
namely the 4096-unit transport truncation of the failure text followed by
the retry-or-`/reset` suggestion (untruncated, hence carrying the
suggestion, whenever it fits the transport ceiling). -/
theorem C4_chat_failure_appends_only_user_turn (cfg : Config) (og : Oracle)
    (st : Store) (chat_id uid : Int) (text : String) (now : Int)
    (s : UserSession) (e : String)
    (hs : st.lookup uid = some s)
    (hauth : s.authenticated = true)
    (hcli : s.claude_client = true)
    (hchat : og.chat = Except.error e)
    (hcmd : startswith text "/" = false) :
    (process_update cfg og st chat_id uid text now).1.lookup uid =
      some (add_message cfg s "user" text now) ∧
    ((add_message cfg s "user" text now).conversation_history <:+
      s.conversation_history ++ [({ role := "user", content := text } : Turn)]) ∧
    (s.conversation_history.length < cfg.MAX_CONVERSATION_LENGTH →
      (add_message cfg s "user" text now).conversation_history =
        s.conversation_history ++ [({ role := "user", content := text } : Turn)]) ∧
    (process_update cfg og st chat_id uid text now).2 =
      tg_send chat_id "🤔 Claude is thinking..." ::
        delete_thinking chat_id og.thinking_id ++
        [tg_send chat_id ("❌ Error: " ++ e ++
          "\n\nPlease try again or use /reset to clear the conversation.")] ∧
    ((("❌ Error: " ++ e ++
        "\n\nPlease try again or use /reset to clear the conversation.") : String).data.length
        ≤ 4096 →
      tg_send chat_id ("❌ Error: " ++ e ++
          "\n\nPlease try again or use /reset to clear the conversation.") =
        Out.send chat_id ("❌ Error: " ++ e ++
          "\n\nPlease try again or use /reset to clear the conversation.")) := by
  have hroute := route_of_not_slash text hcmd
  have hfst := get_or_create_fst_of_some st uid now s hs
  have hsnd := get_or_create_snd_of_some st uid now s hs
  refine ⟨?_, add_message_history_suffix cfg s "user" text now,
    fun hroom => add_message_history_of_room cfg s "user" text now hroom, ?_,
    fun hlen => by
      unfold tg_send
      rw [truncate4096_of_length_le _ hlen]⟩
  · simp only [process_update, hroute, handle_regular_message, hfst, hsnd, hauth, hcli,
      Bool.not_true, Bool.false_eq_true, if_false, hchat]
    exact lookup_store_set_self st uid (add_message cfg s "user" text now)
  · simp only [process_update, hroute, handle_regular_message, hfst, hsnd, hauth, hcli,
      Bool.not_true, Bool.false_eq_true, if_false, hchat]

/-- Witness for C4 (amended): a failing chat call (`boom`) for identity 7
leaves the store holding the session with only the `user` turn appended
(exact append, since this session is below capacity) and sends the
untruncated error message carrying the suggestion. -/
theorem C4_witness :
    (process_update
        { MASTER_PASSWORD := none, DEFAULT_CLAUDE_API_KEY := none,
          MAX_CONVERSATION_LENGTH := 20, SESSION_TIMEOUT_HOURS := 24 }
        { probe_ok := false, chat := Except.error "boom", thinking_id := some 11 }
        [(7, (authenticate_with_api_key (UserSession.new 7 0) "sk-ant-x").1)]
        7 7 "hi" 2).1.lookup 7 =
      some (add_message
        { MASTER_PASSWORD := none, DEFAULT_CLAUDE_API_KEY := none,
          MAX_CONVERSATION_LENGTH := 20, SESSION_TIMEOUT_HOURS := 24 }
        (authenticate_with_api_key (UserSession.new 7 0) "sk-ant-x").1 "user" "hi" 2) ∧
    (add_message
        { MASTER_PASSWORD := none, DEFAULT_CLAUDE_API_KEY := none,
          MAX_CONVERSATION_LENGTH := 20, SESSION_TIMEOUT_HOURS := 24 }
        (authenticate_with_api_key (UserSession.new 7 0) "sk-ant-x").1
        "user" "hi" 2).conversation_history =
      (authenticate_with_api_key (UserSession.new 7 0) "sk-ant-x").1.conversation_history ++
        [({ role := "user", content := "hi" } : Turn)] ∧
    (process_update
        { MASTER_PASSWORD := none, DEFAULT_CLAUDE_API_KEY := none,
          MAX_CONVERSATION_LENGTH := 20, SESSION_TIMEOUT_HOURS := 24 }
        { probe_ok := false, chat := Except.error "boom", thinking_id := some 11 }
        [(7, (authenticate_with_api_key (UserSession.new 7 0) "sk-ant-x").1)]
        7 7 "hi" 2).2 =
      tg_send 7 "🤔 Claude is thinking..." :: delete_thinking 7 (some 11) ++
        [tg_send 7 ("❌ Error: " ++ "boom" ++
          "\n\nPlease try again or use /reset to clear the conversation.")] ∧
    tg_send 7 ("❌ Error: " ++ "boom" ++
        "\n\nPlease try again or use /reset to clear the conversation.") =
      Out.send 7 ("❌ Error: " ++ "boom" ++
        "\n\nPlease try again or use /reset to clear the conversation.") := by
  have h := C4_chat_failure_appends_only_user_turn
    { MASTER_PASSWORD := none, DEFAULT_CLAUDE_API_KEY := none,
      MAX_CONVERSATION_LENGTH := 20, SESSION_TIMEOUT_HOURS := 24 }
    { probe_ok := false, chat := Except.error "boom", thinking_id := some 11 }
    [(7, (authenticate_with_api_key (UserSession.new 7 0) "sk-ant-x").1)]
    7 7 "hi" 2 (authenticate_with_api_key (UserSession.new 7 0) "sk-ant-x").1 "boom"
    (by decide) (by decide) (by decide) rfl (by decide)
  exact ⟨h.1, h.2.2.1 (by decide), h.2.2.2.1, h.2.2.2.2 (by decide)⟩

/-! Facts about the chunking comprehension. -/

lemma pyChunks_map_length (n : Nat) (s : List Char) :
    (pyChunks n s).map List.length =
      (List.range' 0 ((s.length + n - 1) / n) n).map (fun i => min n (s.length - i)) := by
  unfold pyChunks
  rw [List.map_map]
  apply List.map_congr_left
  intro i _
  simp [Function.comp, List.length_take, List.length_drop]

lemma pyChunks_nil (n : Nat) (hn : 0 < n) : pyChunks n [] = [] := by
  unfold pyChunks
  rw [show (([] : List Char).length + n - 1) / n = 0 from by
    simp only [List.length_nil, Nat.zero_add]
    exact Nat.div_eq_of_lt (by omega)]
  simp

lemma pyChunks_cons (n : Nat) (hn : 0 < n) (s : List Char) (hs : s ≠ []) :
    pyChunks n s = s.take n :: pyChunks n (s.drop n) := by
  have hL : 1 ≤ s.length := List.length_pos.mpr hs
  have key : (s.length - 1) / n = (s.length - n + n - 1) / n := by
    by_cases hc : n ≤ s.length
    · rw [show s.length - n + n - 1 = s.length - 1 from by omega]
    · rw [show s.length - n = 0 from by omega]
      rw [Nat.div_eq_of_lt (by omega), Nat.div_eq_of_lt (by omega)]
  have hcount : (s.length + n - 1) / n = ((s.drop n).length + n - 1) / n + 1 := by
    rw [List.length_drop]
    rw [show s.length + n - 1 = (s.length - 1) + n from by omega]
    rw [Nat.add_div_right _ hn, key]
  unfold pyChunks
  rw [hcount, List.range'_succ, List.map_cons]
  congr 1
  rw [Nat.zero_add n]
  rw [show List.range' n (((List.drop n s).length + n - 1) / n) n =
      List.map (n + ·) (List.range' 0 (((List.drop n s).length + n - 1) / n) n) from by
      rw [List.map_add_range']
      norm_num]
  rw [List.map_map]
  apply List.map_congr_left
  intro i _
  show List.take n (List.drop (n + i) s) = List.take n (List.drop i (List.drop n s))
  rw [List.drop_drop]

lemma pyChunks_flatten_aux (n : Nat) (hn : 0 < n) :
    ∀ (k : Nat) (s : List Char), s.length ≤ k → (pyChunks n s).flatten = s := by
  intro k
  induction k with
  | zero =>
    intro s hs
    have h0 : s = [] := List.length_eq_zero.mp (Nat.le_zero.mp hs)
    subst h0
    rw [pyChunks_nil n hn]
    rfl
  | succ k ih =>
    intro s hs
    by_cases hnil : s = []
    · subst hnil
      rw [pyChunks_nil n hn]
      rfl
    · rw [pyChunks_cons n hn s hnil, List.flatten_cons]
      rw [ih (s.drop n) (by
        rw [List.length_drop]
        have := List.length_pos.mpr hnil
        omega)]
      exact List.take_append_drop n s

lemma pyChunks_flatten (n : Nat) (hn : 0 < n) (s : List Char) :
    (pyChunks n s).flatten = s :=
  pyChunks_flatten_aux n hn s.length s (Nat.le_refl _)

lemma pyChunks_chunk_length_le (n : Nat) (s : List Char) :
    ∀ c ∈ pyChunks n s, c.length ≤ n := by
  intro c hc
  unfold pyChunks at hc
  rcases List.mem_map.mp hc with ⟨i, _, rfl⟩
  exact List.length_take_le n _

lemma pyChunks_lengths_9000 (s : List Char) (h : s.length = 9000) :
    (pyChunks 4096 s).map List.length = [4096, 4096, 808] := by
  rw [pyChunks_map_length, h]
  decide

/-- C5 counterexample: the code chunks by `range(0, len, 4096)`, so a reply
of length 9000 is cut into three chunks of lengths 4096, 4096 and 808 — not
two chunks of 4096 and 4904 as claimed (a 4904-unit chunk would itself
exceed the 4096 ceiling). -/
theorem C5_counterexample :
    (pyChunks 4096 (List.replicate 9000 'a')).map List.length = [4096, 4096, 808] ∧
    (pyChunks 4096 (List.replicate 9000 'a')).map List.length ≠ [4096, 4904] := by
  have h := pyChunks_lengths_9000 (List.replicate 9000 'a') (by rw [List.length_replicate])
  refine ⟨h, ?_⟩
  rw [h]
  decide

/-- C5 as amended: a reply is sent as ordered contiguous chunks of at most
4096 units — an oversized reply as the `⌈len/4096⌉` slices of `pyChunks`
(each of length at most 4096, all of 4096 except a shorter final one), whose
concatenation is the reply, and a reply within the ceiling as a single
message; a length-9000 reply gives exactly three chunks of lengths 4096,
4096, 808, sent in that order. -/
theorem C5_reply_chunking_amended (cfg : Config) (og : Oracle) (st : Store)
    (chat_id uid : Int) (text : String) (now : Int) (s : UserSession) (reply : String)
    (hs : st.lookup uid = some s)
    (hauth : s.authenticated = true)
    (hcli : s.claude_client = true)
    (hchat : og.chat = Except.ok reply)
    (hcmd : startswith text "/" = false) :
    (4096 < reply.length →
      (process_update cfg og st chat_id uid text now).2 =
        tg_send chat_id "🤔 Claude is thinking..." ::
          delete_thinking chat_id og.thinking_id ++
          (pyChunks 4096 reply.data).map (fun c => Out.send chat_id (String.mk c))) ∧
    (reply.length ≤ 4096 →
      (process_update cfg og st chat_id uid text now).2 =
        tg_send chat_id "🤔 Claude is thinking..." ::
          delete_thinking chat_id og.thinking_id ++ [Out.send chat_id reply]) ∧
    (pyChunks 4096 reply.data).flatten = reply.data ∧
    (∀ c ∈ pyChunks 4096 reply.data, c.length ≤ 4096) ∧
    (reply.length = 9000 →
      (pyChunks 4096 reply.data).map List.length = [4096, 4096, 808]) := by
  have hroute := route_of_not_slash text hcmd
  have hfst := get_or_create_fst_of_some st uid now s hs
  have hsnd := get_or_create_snd_of_some st uid now s hs
  refine ⟨?_, ?_, pyChunks_flatten 4096 (by omega) reply.data,
    pyChunks_chunk_length_le 4096 reply.data,
    fun h9 => pyChunks_lengths_9000 reply.data h9⟩
  · intro hlong
    simp only [process_update, hroute, handle_regular_message, hfst, hsnd, hauth, hcli,
      Bool.not_true, Bool.false_eq_true, if_false, hchat]
    rw [if_pos hlong]
    congr 1
    apply List.map_congr_left
    intro c hc
    unfold tg_send
    rw [truncate4096_of_length_le (String.mk c) (pyChunks_chunk_length_le 4096 reply.data c hc)]
  · intro hshort
    simp only [process_update, hroute, handle_regular_message, hfst, hsnd, hauth, hcli,
      Bool.not_true, Bool.false_eq_true, if_false, hchat]
    rw [if_neg (not_lt.mpr hshort)]
    rw [show tg_send chat_id reply = Out.send chat_id reply from by
      unfold tg_send
      rw [truncate4096_of_length_le reply hshort]]

/-- Witness for C5 (amended): a concrete 9000-character reply is sent as the
three chunks, whose lengths are 4096, 4096 and 808. -/
theorem C5_witness :
    (process_update
        { MASTER_PASSWORD := none, DEFAULT_CLAUDE_API_KEY := none,
          MAX_CONVERSATION_LENGTH := 20, SESSION_TIMEOUT_HOURS := 24 }
        { probe_ok := false, chat := Except.ok (String.mk (List.replicate 9000 'a')),
          thinking_id := some 11 }
        [(7, (authenticate_with_api_key (UserSession.new 7 0) "sk-ant-x").1)]
        7 7 "hi" 2).2 =
      tg_send 7 "🤔 Claude is thinking..." :: delete_thinking 7 (some 11) ++
        (pyChunks 4096 (String.mk (List.replicate 9000 'a')).data).map
          (fun c => Out.send 7 (String.mk c)) ∧
    (pyChunks 4096 (String.mk (List.replicate 9000 'a')).data).map List.length =
      [4096, 4096, 808] := by
  have h := C5_reply_chunking_amended
    { MASTER_PASSWORD := none, DEFAULT_CLAUDE_API_KEY := none,
      MAX_CONVERSATION_LENGTH := 20, SESSION_TIMEOUT_HOURS := 24 }
    { probe_ok := false, chat := Except.ok (String.mk (List.replicate 9000 'a')),
      thinking_id := some 11 }
    [(7, (authenticate_with_api_key (UserSession.new 7 0) "sk-ant-x").1)]
    7 7 "hi" 2 (authenticate_with_api_key (UserSession.new 7 0) "sk-ant-x").1
    (String.mk (List.replicate 9000 'a'))
    (by decide) (by decide) (by decide) rfl (by decide)
  refine ⟨h.1 (by
    show 4096 < (List.replicate 9000 'a').length
    rw [List.length_replicate]
    omega), h.2.2.2.2 (by
    show (List.replicate 9000 'a').length = 9000
    rw [List.length_replicate])⟩

lemma authenticate_with_password_last_activity (cfg : Config) (s : UserSession)
    (pw : String) :
    (authenticate_with_password cfg s pw).1.last_activity = s.last_activity := by
  unfold authenticate_with_password
  split_ifs <;> rfl

/-- C10: `last_activity` is only stamped at session creation and inside
`add_message`; processing any command (`/start`, `/reset`, `/help`, unknown
`/`-text) or any authentication attempt (the unauthenticated non-command
path, successful or not) leaves the stored `last_activity` unchanged — so a
session whose user only sends such events longer than the timeout is evicted
by the sweeper despite that activity. -/
theorem C10_commands_never_touch_last_activity (cfg : Config) (og : Oracle)
    (st : Store) (chat_id uid : Int) (text : String) (now : Int) (s : UserSession)
    (hs : st.lookup uid = some s)
    (hev : startswith text "/" = true ∨ s.authenticated = false) :
    (∃ s2, (process_update cfg og st chat_id uid text now).1.lookup uid = some s2 ∧
      s2.last_activity = s.last_activity) ∧
    (∀ now2 : Int, nodup_keys st → timeout_delta cfg < now2 - s.last_activity →
      (clean_old_sessions cfg now2
        (process_update cfg og st chat_id uid text now).1).lookup uid = none) := by
  have hfst := get_or_create_fst_of_some st uid now s hs
  have hsnd := get_or_create_snd_of_some st uid now s hs
  have main : ∃ s2, (process_update cfg og st chat_id uid text now).1.lookup uid = some s2 ∧
      s2.last_activity = s.last_activity := by
    cases hroute : route text with
    | start =>
      refine ⟨reset_conversation s, ?_, rfl⟩
      simp only [process_update, hroute, handle_start_command, hfst, hsnd]
      exact lookup_store_set_self st uid (reset_conversation s)
    | reset =>
      cases hauth : s.authenticated with
      | false =>
        refine ⟨s, ?_, rfl⟩
        simp only [process_update, hroute, handle_reset_command, hfst, hsnd, hauth,
          Bool.not_false, if_true]
        exact hs
      | true =>
        refine ⟨reset_conversation s, ?_, rfl⟩
        simp only [process_update, hroute, handle_reset_command, hfst, hsnd, hauth,
          Bool.not_true, Bool.false_eq_true, if_false]
        exact lookup_store_set_self st uid (reset_conversation s)
    | help =>
      refine ⟨s, ?_, rfl⟩
      simp only [process_update, hroute]
      exact hs
    | regular =>
      have hauth : s.authenticated = false := by
        rcases hev with hcmd | hauth
        · rw [route_regular_startswith text hroute] at hcmd
          exact absurd hcmd (by decide)
        · exact hauth
      simp only [process_update, hroute, handle_regular_message, hfst, hsnd, hauth,
        Bool.not_false, if_true]
      cases hsk : startswith text "sk-ant-" with
      | true =>
        simp only [if_true]
        cases hp : og.probe_ok with
        | true =>
          simp only [if_true]
          refine ⟨(authenticate_with_api_key s text).1, ?_, rfl⟩
          exact lookup_store_set_self st uid (authenticate_with_api_key s text).1
        | false =>
          simp only [Bool.false_eq_true, if_false]
          exact ⟨s, hs, rfl⟩
      | false =>
        simp only [Bool.false_eq_true, if_false]
        cases hb : (strTruthy cfg.MASTER_PASSWORD &&
            (authenticate_with_password cfg s text).2) with
        | true =>
          simp only [if_true]
          refine ⟨(authenticate_with_password cfg s text).1, ?_,
            authenticate_with_password_last_activity cfg s text⟩
          exact lookup_store_set_self st uid (authenticate_with_password cfg s text).1
        | false =>
          simp only [Bool.false_eq_true, if_false]
          exact ⟨s, hs, rfl⟩
    | unmatched =>
      refine ⟨s, ?_, rfl⟩
      simp only [process_update, hroute]
      exact hs
  refine ⟨main, ?_⟩
  intro now2 hnd hidle
  rcases main with ⟨s2, h2, heq⟩
  have hnd2 := nodup_keys_process_update cfg og st chat_id uid text now hnd
  unfold clean_old_sessions
  refine lookup_filter_of_false _ uid s2 _ hnd2 h2 ?_
  rw [heq]
  simp only [decide_eq_false_iff_not, not_le]
  exact hidle

/-- Witness for C10: identity 2 sends only `/help`; its `last_activity`
stays 0 and the sweep at 25 hours evicts it despite the command activity. -/
theorem C10_witness :
    (∃ s2, (process_update
        { MASTER_PASSWORD := none, DEFAULT_CLAUDE_API_KEY := none,
          MAX_CONVERSATION_LENGTH := 20, SESSION_TIMEOUT_HOURS := 24 }
        { probe_ok := false, chat := Except.error "boom", thinking_id := none }
        [(2, UserSession.new 2 0)] 2 2 "/help" 70000).1.lookup 2 = some s2 ∧
      s2.last_activity = (UserSession.new 2 0).last_activity) ∧
    (clean_old_sessions
        { MASTER_PASSWORD := none, DEFAULT_CLAUDE_API_KEY := none,
          MAX_CONVERSATION_LENGTH := 20, SESSION_TIMEOUT_HOURS := 24 }
        90000
        (process_update
          { MASTER_PASSWORD := none, DEFAULT_CLAUDE_API_KEY := none,
            MAX_CONVERSATION_LENGTH := 20, SESSION_TIMEOUT_HOURS := 24 }
          { probe_ok := false, chat := Except.error "boom", thinking_id := none }
          [(2, UserSession.new 2 0)] 2 2 "/help" 70000).1).lookup 2 = none := by
  have h := C10_commands_never_touch_last_activity
    { MASTER_PASSWORD := none, DEFAULT_CLAUDE_API_KEY := none,
      MAX_CONVERSATION_LENGTH := 20, SESSION_TIMEOUT_HOURS := 24 }
    { probe_ok := false, chat := Except.error "boom", thinking_id := none }
    [(2, UserSession.new 2 0)] 2 2 "/help" 70000 (UserSession.new 2 0)
    (by decide) (Or.inl (by decide))
  exact ⟨h.1, h.2 90000 (by simp [nodup_keys]) (by decide)⟩

end ClaudeTelegramChat
